import Mathlib

/-!
Shallow embedding of the MQTT-IR bridge correlation engine
(`src/mqtt_bridge.py`): the routing table (`IR_LIBRARY`), the pending
store (`pending_commands`), the message handler (`on_message`), the
eviction sweep (`cleanup_pending_commands`) and the library loader
(`load_library`).

Modelling conventions:
* Python dicts become association lists over `String` keys; insertion
  replaces the value of an existing key in place and appends otherwise,
  and lookup returns the first (unique, in any reachable state) match,
  exactly the observable behaviour of a Python dict.
* `time.time()` becomes an explicit `Nat` clock passed to each
  operation; timestamps are `Nat`.
* The `json` module is embedded by an executable JSON value type with a
  parser (`json_loads`) and the default-settings serializer
  (`json_dumps`, separators ", " and ": ", ensure_ascii).  JSON floats
  are not modelled: a payload containing a float literal simply fails to
  parse here.  Python `==` on decoded values (where `True == 1` and
  booleans are numeric) is embedded as `pyEq`.
* MQTT publishes become an explicit output list of `Publish` records.
-/

/-! ## Association lists standing for Python dicts -/

def assocFind {β : Type} : List (String × β) → String → Option β
  | [], _ => none
  | kv :: rest, k => if kv.1 = k then some kv.2 else assocFind rest k

def assocInsert {β : Type} : List (String × β) → String → β → List (String × β)
  | [], k, v => [(k, v)]
  | kv :: rest, k, v =>
      if kv.1 = k then (k, v) :: rest else kv :: assocInsert rest k v

def assocErase {β : Type} : List (String × β) → String → List (String × β)
  | [], _ => []
  | kv :: rest, k =>
      if kv.1 = k then assocErase rest k else kv :: assocErase rest k

/-! ## Python string helpers -/

/-- The characters Python `str.strip` and `str.split` treat as
whitespace (ASCII fragment). -/
def isPySpace (c : Char) : Bool :=
  c = ' ' || c = '\t' || c = '\n' || c = '\r' || c = '\x0b' || c = '\x0c'

/-- Python `str.strip()`. -/
def pyStrip (s : String) : String :=
  String.mk (((s.data.dropWhile isPySpace).reverse.dropWhile isPySpace).reverse)

def listIsPrefixOfB : List Char → List Char → Bool
  | [], _ => true
  | _ :: _, [] => false
  | a :: as, b :: bs => a == b && listIsPrefixOfB as bs

def listSubstrB : List Char → List Char → Bool
  | n, [] => n.isEmpty
  | n, hd :: tl => listIsPrefixOfB n (hd :: tl) || listSubstrB n tl

/-- Python `needle in hay` on strings: literal substring containment. -/
def pyIn (needle hay : String) : Bool :=
  listSubstrB needle.data hay.data

/-- Python `s.split(maxsplit=m)` (no separator argument): drop leading
whitespace, take whitespace-delimited tokens, and after `m` splits keep
the remainder verbatim (with its leading whitespace consumed); an
all-whitespace remainder yields nothing. -/
def pySplitAux : Nat → Nat → List Char → List String
  | 0, _, _ => []
  | f + 1, maxsplit, cs =>
      match cs.dropWhile isPySpace with
      | [] => []
      | c :: rest =>
          if maxsplit = 0 then [String.mk (c :: rest)]
          else
            String.mk ((c :: rest).takeWhile (fun ch => !isPySpace ch)) ::
              pySplitAux f (maxsplit - 1)
                ((c :: rest).dropWhile (fun ch => !isPySpace ch))

def pySplit (maxsplit : Nat) (s : String) : List String :=
  pySplitAux (s.length + 1) maxsplit s.data

/-! ## JSON values, parsing and serialization -/

inductive Json where
  | null : Json
  | bool : Bool → Json
  | num : Int → Json
  | str : String → Json
  | arr : List Json → Json
  | obj : List (String × Json) → Json

/-- JSON whitespace accepted between tokens by Python `json.loads`. -/
def isJsonWs (c : Char) : Bool :=
  c = ' ' || c = '\t' || c = '\n' || c = '\r'

def skipWs (cs : List Char) : List Char := cs.dropWhile isJsonWs

def hexDigitVal (c : Char) : Option Nat :=
  if '0' ≤ c ∧ c ≤ '9' then some (c.toNat - 48)
  else if 'a' ≤ c ∧ c ≤ 'f' then some (c.toNat - 87)
  else if 'A' ≤ c ∧ c ≤ 'F' then some (c.toNat - 55)
  else none

/-- Body of a JSON string literal, after the opening quote: returns the
decoded characters and the input following the closing quote. -/
def parseStrChars : Nat → List Char → Option (List Char × List Char)
  | 0, _ => none
  | _ + 1, [] => none
  | f + 1, c :: rest =>
      if c = '"' then some ([], rest)
      else if c = '\\' then
        match rest with
        | [] => none
        | e :: r2 =>
            if e = 'u' then
              match r2 with
              | a :: b :: c2 :: d :: r3 =>
                  match hexDigitVal a, hexDigitVal b, hexDigitVal c2, hexDigitVal d with
                  | some ha, some hb, some hc, some hd =>
                      match parseStrChars f r3 with
                      | some (out, rem) =>
                          some (Char.ofNat (ha * 4096 + hb * 256 + hc * 16 + hd) :: out, rem)
                      | none => none
                  | _, _, _, _ => none
              | _ => none
            else
              match (if e = '"' then some '"'
                     else if e = '\\' then some '\\'
                     else if e = '/' then some '/'
                     else if e = 'b' then some '\x08'
                     else if e = 'f' then some '\x0c'
                     else if e = 'n' then some '\n'
                     else if e = 'r' then some '\r'
                     else if e = 't' then some '\t'
                     else none) with
              | some ch =>
                  match parseStrChars f r2 with
                  | some (out, rem) => some (ch :: out, rem)
                  | none => none
              | none => none
      else if c.toNat < 32 then none
      else
        match parseStrChars f rest with
        | some (out, rem) => some (c :: out, rem)
        | none => none

/-- JSON integer literal (floats are deliberately not modelled; a
number followed by '.', 'e' or 'E' fails to parse). -/
def parseNum (cs : List Char) : Option (Json × List Char) :=
  let neg := match cs with | '-' :: _ => true | _ => false
  let cs1 := match cs with | '-' :: r => r | _ => cs
  let digits := cs1.takeWhile Char.isDigit
  let rest := cs1.dropWhile Char.isDigit
  if digits.isEmpty then none
  else if 1 < digits.length ∧ digits.headD '0' = '0' then none
  else
    match rest with
    | '.' :: _ => none
    | 'e' :: _ => none
    | 'E' :: _ => none
    | _ =>
        let n : Nat := digits.foldl (fun a c => a * 10 + (c.toNat - 48)) 0
        some (Json.num (if neg then -(n : Int) else (n : Int)), rest)

mutual

def parseVal : Nat → List Char → Option (Json × List Char)
  | 0, _ => none
  | f + 1, cs =>
      match skipWs cs with
      | [] => none
      | c :: rest =>
          if c = 'n' then
            match rest with
            | 'u' :: 'l' :: 'l' :: r => some (Json.null, r)
            | _ => none
          else if c = 't' then
            match rest with
            | 'r' :: 'u' :: 'e' :: r => some (Json.bool true, r)
            | _ => none
          else if c = 'f' then
            match rest with
            | 'a' :: 'l' :: 's' :: 'e' :: r => some (Json.bool false, r)
            | _ => none
          else if c = '"' then
            match parseStrChars (rest.length + 1) rest with
            | some (out, rem) => some (Json.str (String.mk out), rem)
            | none => none
          else if c = '\x7b' then
            match skipWs rest with
            | '\x7d' :: r => some (Json.obj [], r)
            | cs2 =>
                match parseItems f cs2 with
                | some (kvs, r) =>
                    some (Json.obj (kvs.foldl (fun acc kv => assocInsert acc kv.1 kv.2) []), r)
                | none => none
          else if c = '[' then
            match skipWs rest with
            | ']' :: r => some (Json.arr [], r)
            | cs2 =>
                match parseElems f cs2 with
                | some (xs, r) => some (Json.arr xs, r)
                | none => none
          else parseNum (c :: rest)

def parseElems : Nat → List Char → Option (List Json × List Char)
  | 0, _ => none
  | f + 1, cs =>
      match parseVal f cs with
      | some (v, r1) =>
          match skipWs r1 with
          | ',' :: r2 =>
              match parseElems f r2 with
              | some (xs, r3) => some (v :: xs, r3)
              | none => none
          | ']' :: r2 => some ([v], r2)
          | _ => none
      | none => none

def parseItems : Nat → List Char → Option (List (String × Json) × List Char)
  | 0, _ => none
  | f + 1, cs =>
      match cs with
      | '"' :: rest =>
          match parseStrChars (rest.length + 1) rest with
          | some (kout, r1) =>
              match skipWs r1 with
              | ':' :: r2 =>
                  match parseVal f r2 with
                  | some (v, r3) =>
                      match skipWs r3 with
                      | ',' :: r4 =>
                          match parseItems f (skipWs r4) with
                          | some (kvs, r5) => some ((String.mk kout, v) :: kvs, r5)
                          | none => none
                      | '\x7d' :: r4 => some ([(String.mk kout, v)], r4)
                      | _ => none
                  | none => none
              | _ => none
          | none => none
      | _ => none

end

/-- Python `json.loads`: parse one value, allow trailing whitespace,
reject trailing garbage. -/
def json_loads (s : String) : Option Json :=
  match parseVal (s.length * 2 + 16) s.data with
  | some (v, rest) => if (skipWs rest).isEmpty then some v else none
  | none => none

mutual

def jsonSize : Json → Nat
  | Json.null => 1
  | Json.bool _ => 1
  | Json.num _ => 1
  | Json.str _ => 1
  | Json.arr xs => 1 + jsonListSize xs
  | Json.obj kvs => 1 + jsonObjSize kvs

def jsonListSize : List Json → Nat
  | [] => 0
  | x :: xs => 1 + jsonSize x + jsonListSize xs

def jsonObjSize : List (String × Json) → Nat
  | [] => 0
  | kv :: kvs => 1 + jsonSize kv.2 + jsonObjSize kvs

end

def hex4 (n : Nat) : String :=
  let d := fun (m : Nat) =>
    if m < 10 then Char.ofNat (48 + m) else Char.ofNat (87 + m)
  String.mk [d (n / 4096 % 16), d (n / 256 % 16), d (n / 16 % 16), d (n % 16)]

/-- One character of a JSON string as Python `json.dumps` (default
`ensure_ascii=True`) emits it. -/
def dumpChar (c : Char) : String :=
  if c = '"' then "\\\""
  else if c = '\\' then "\\\\"
  else if c = '\n' then "\\n"
  else if c = '\r' then "\\r"
  else if c = '\t' then "\\t"
  else if c = '\x08' then "\\b"
  else if c = '\x0c' then "\\f"
  else if c.toNat < 32 ∨ 127 ≤ c.toNat then "\\u" ++ hex4 c.toNat
  else String.mk [c]

def dumpStr (s : String) : String :=
  "\"" ++ String.join (s.data.map dumpChar) ++ "\""

mutual

def dumpsF : Nat → Json → String
  | 0, _ => ""
  | f + 1, j =>
      match j with
      | Json.null => "null"
      | Json.bool true => "true"
      | Json.bool false => "false"
      | Json.num n => toString n
      | Json.str s => dumpStr s
      | Json.arr xs => "[" ++ dumpsListF f xs ++ "]"
      | Json.obj kvs => "\x7b" ++ dumpsObjF f kvs ++ "\x7d"

def dumpsListF : Nat → List Json → String
  | 0, _ => ""
  | _ + 1, [] => ""
  | f + 1, [x] => dumpsF f x
  | f + 1, x :: y :: xs => dumpsF f x ++ ", " ++ dumpsListF f (y :: xs)

def dumpsObjF : Nat → List (String × Json) → String
  | 0, _ => ""
  | _ + 1, [] => ""
  | f + 1, [kv] => dumpStr kv.1 ++ ": " ++ dumpsF f kv.2
  | f + 1, kv :: kv2 :: kvs =>
      dumpStr kv.1 ++ ": " ++ dumpsF f kv.2 ++ ", " ++ dumpsObjF f (kv2 :: kvs)

end

/-- Python `json.dumps` with default settings (item separator ", ",
key separator ": "). -/
def json_dumps (j : Json) : String := dumpsF (jsonSize j + 1) j

/-! ## Python `==` on decoded JSON values -/

/-- Numeric view: Python booleans are the integers 0 and 1. -/
def pyNumView : Json → Option Int
  | Json.bool b => some (if b then 1 else 0)
  | Json.num n => some n
  | _ => none

mutual

def pyEqF : Nat → Json → Json → Bool
  | 0, _, _ => false
  | f + 1, a, b =>
      match a, b with
      | Json.null, Json.null => true
      | Json.str x, Json.str y => x == y
      | Json.arr xs, Json.arr ys => pyEqListF f xs ys
      | Json.obj xs, Json.obj ys => xs.length == ys.length && pyEqObjF f xs ys
      | _, _ =>
          match pyNumView a, pyNumView b with
          | some x, some y => x == y
          | _, _ => false

def pyEqListF : Nat → List Json → List Json → Bool
  | 0, _, _ => false
  | _ + 1, [], [] => true
  | f + 1, x :: xs, y :: ys => pyEqF f x y && pyEqListF f xs ys
  | _ + 1, _, _ => false

def pyEqObjF : Nat → List (String × Json) → List (String × Json) → Bool
  | 0, _, _ => false
  | _ + 1, [], _ => true
  | f + 1, kv :: rest, ys => pyLookupEqF f ys kv.1 kv.2 && pyEqObjF f rest ys

def pyLookupEqF : Nat → List (String × Json) → String → Json → Bool
  | 0, _, _, _ => false
  | _ + 1, [], _, _ => false
  | f + 1, kv :: rest, k, v =>
      if kv.1 = k then pyEqF f kv.2 v else pyLookupEqF f rest k v

end

/-- Python `==` between two decoded JSON values. -/
def pyEq (a b : Json) : Bool := pyEqF ((jsonSize a + 1) * (jsonSize b + 1)) a b

/-! ## The correlation engine (`on_message`, `cleanup_pending_commands`) -/

/-- One routing-table entry, as stored by `load_library`:
`IR_LIBRARY[ui_topic][input_msg]`. -/
structure Entry where
  payload : String
  cmd_topic : String
  output : String
  status_topic : String
  status_msg : String
deriving DecidableEq

/-- `IR_LIBRARY`: ui_topic → input_msg → Entry. -/
abbrev IRLibrary := List (String × List (String × Entry))

/-- One value of `pending_commands`, keyed by the entry's status topic. -/
structure Pending where
  ui_topic : String
  input_val : String
  output_val : String
  timestamp : Nat
deriving DecidableEq

abbrev PendingStore := List (String × Pending)

/-- An outbound MQTT publish (`client.publish(topic, payload, retain=...)`). -/
structure Publish where
  topic : String
  payload : String
  retain : Bool
deriving DecidableEq

/-- The guard `if startup_time and (time.time() - startup_time) < 3` at the
top of `on_message` (`startup_time` is falsy when it is `None` or `0.0`). -/
def startupSuppressed (startup : Option Nat) (now : Nat) : Bool :=
  match startup with
  | some t => t != 0 && decide (now - t < 3)
  | none => false

/-- The command normalization in the dispatch path:
`try: send_payload = json.dumps(json.loads(entry["payload"])) except: send_payload = entry["payload"]`. -/
def normalize_payload (p : String) : String :=
  match json_loads p with
  | some j => json_dumps j
  | none => p

/-- `IR_LIBRARY[a][b]` double indexing; `none` models the `KeyError` path. -/
def assocFind2 (lib : IRLibrary) (a b : String) : Option Entry :=
  match assocFind lib a with
  | some cmds => assocFind cmds b
  | none => none

/-- One conjunct of `all(payload_json.get(k) == v for k, v in expected_json.items())`:
`dict.get` yields Python `None` (= JSON null) for a missing key. -/
def matchKeyOk (pkvs : List (String × Json)) (kv : String × Json) : Bool :=
  pyEq ((assocFind pkvs kv.1).getD Json.null) kv.2

/-- The status-match predicate of the resolution path (the try/except
block of `on_message`): if `status_msg` decodes to a JSON object and the
inbound payload decodes to any JSON value, an empty expected object
matches outright (the `all` generator never touches `payload_json`); a
non-empty expected object is key/value-compared when the payload is an
object and otherwise raises inside `all`, landing in the substring
fallback; every decode failure also lands in the substring fallback. -/
def matchStatus (status_msg payload : String) : Bool :=
  match json_loads status_msg with
  | some (Json.obj ekvs) =>
      match json_loads payload with
      | some pj =>
          match ekvs with
          | [] => true
          | _ :: _ =>
              match pj with
              | Json.obj pkvs => ekvs.all (matchKeyOk pkvs)
              | _ => pyIn status_msg payload
      | none => pyIn status_msg payload
  | _ => pyIn status_msg payload

/-- The `on_message` callback.  State in: the routing table, the startup
time, the clock and the pending store; state out: the new pending store
and the list of publishes performed.  A failed `IR_LIBRARY` double index
in the resolution path (`KeyError` after the `pop`) aborts the handler
with the entry already removed and nothing published. -/
def on_message (lib : IRLibrary) (startup : Option Nat) (now : Nat)
    (pending : PendingStore) (topic payload : String) :
    PendingStore × List Publish :=
  if startupSuppressed startup now then (pending, [])
  else
    match assocFind lib topic with
    | some cmds =>
        match assocFind cmds (pyStrip payload) with
        | some entry =>
            (assocInsert pending entry.status_topic
               ⟨topic, pyStrip payload, entry.output, now⟩,
             [⟨entry.cmd_topic, normalize_payload entry.payload, false⟩])
        | none => (pending, [])
    | none =>
        match assocFind pending topic with
        | some pd =>
            match assocFind2 lib pd.ui_topic pd.input_val with
            | some entry =>
                if matchStatus entry.status_msg payload then
                  (assocErase pending topic,
                   [⟨pd.ui_topic ++ "/status", pd.output_val, true⟩])
                else (assocErase pending topic, [])
            | none => (assocErase pending topic, [])
        | none => (pending, [])

/-- `cleanup_pending_commands`: collect the keys of entries older than
30 time units, then pop each of them.  It performs no publish (its type
has no publish output, as in the source). -/
def cleanup_pending_commands (now : Nat) (pending : PendingStore) : PendingStore :=
  let to_remove :=
    (pending.filter (fun kv => decide (30 < now - kv.2.timestamp))).map Prod.fst
  to_remove.foldl (fun p t => assocErase p t) pending

/-! ## The library loader (`load_library`) -/

/-- Running state of `load_library`: the table, `command_count`, and the
number of parse warnings recorded. -/
structure LoadState where
  lib : IRLibrary
  count : Nat
  warnings : Nat
deriving DecidableEq

/-- `line.startswith("#")`. -/
def startsWithHash (line : String) : Bool :=
  match line.data with
  | c :: _ => c = '#'
  | [] => false

/-- `if not line or line.startswith("#"): continue` (on the stripped line). -/
def skipLine (line : String) : Bool :=
  line.isEmpty || startsWithHash line

/-- The 7-field unpack
`ui_topic, payload, device_topic, input_msg, device_result, device_status, output_msg = line.split(maxsplit=6)`;
fewer than 7 fields raises, i.e. yields `none`. -/
def parseRecord (line : String) : Option (String × String × Entry) :=
  match pySplit 6 line with
  | [ui_topic, payload, device_topic, input_msg, device_result, device_status, output_msg] =>
      some (ui_topic, input_msg,
        { payload := payload, cmd_topic := device_topic, output := output_msg,
          status_topic := device_status, status_msg := device_result })
  | _ => none

/-- `IR_LIBRARY[ui_topic][input_msg] = {...}`, creating the inner dict
when absent. -/
def libInsert (lib : IRLibrary) (u i : String) (e : Entry) : IRLibrary :=
  assocInsert lib u (assocInsert ((assocFind lib u).getD []) i e)

/-- One iteration of the line loop of `load_library`. -/
def processLine (st : LoadState) (raw : String) : LoadState :=
  if skipLine (pyStrip raw) then st
  else
    match parseRecord (pyStrip raw) with
    | some r => ⟨libInsert st.lib r.1 r.2.1 r.2.2, st.count + 1, st.warnings⟩
    | none => ⟨st.lib, st.count, st.warnings + 1⟩

/-- `load_library` over the contents of the readable library files (one
list of raw lines per file). -/
def load_library (files : List (List String)) : LoadState :=
  files.foldl (fun st lines => lines.foldl processLine st) ⟨[], 0, 0⟩

/-- The boolean `load_library` returns: `False` exactly when
`command_count == 0`. -/
def load_library_succeeded (files : List (List String)) : Bool :=
  !((load_library files).count == 0)

/-! ## Spec-side restatements used to compare against the code -/

/-- A raw line's record when it is valid: stripped, not skipped, and
parsing into 7 fields. -/
def recordOf (raw : String) : Option (String × String × Entry) :=
  if skipLine (pyStrip raw) then none else parseRecord (pyStrip raw)

/-- A raw line that is neither empty/comment nor well-formed. -/
def isMalformedLine (raw : String) : Bool :=
  !skipLine (pyStrip raw) && (parseRecord (pyStrip raw)).isNone

/-- All valid records of all files, in file/line order. -/
def validRecords (files : List (List String)) : List (String × String × Entry) :=
  files.flatten.filterMap recordOf

def malformedCount (files : List (List String)) : Nat :=
  files.flatten.countP isMalformedLine

/-- The routing table built from a record list alone. -/
def buildLib (lib : IRLibrary) (records : List (String × String × Entry)) : IRLibrary :=
  records.foldl (fun l r => libInsert l r.1 r.2.1 r.2.2) lib

/-- One conjunct of the match predicate exactly as the spec words it:
the key must be present in the inbound object with an equal value. -/
def claimKeyOk (pkvs : List (String × Json)) (kv : String × Json) : Bool :=
  match assocFind pkvs kv.1 with
  | some w => pyEq w kv.2
  | none => false

/-- The match predicate exactly as the claim states it: when both sides
decode to JSON objects, subset key/value match; in every other case,
literal substring containment. -/
def claimMatch (status_msg payload : String) : Bool :=
  match json_loads status_msg, json_loads payload with
  | some (Json.obj ekvs), some (Json.obj pkvs) => ekvs.all (claimKeyOk pkvs)
  | _, _ => pyIn status_msg payload

/-- The amended match predicate: an expected JSON object against a
payload that decodes to any JSON value matches by key/value subset when
the payload is an object (`dict.get` treating an expected null as also
matching an absent key), and an empty expected object matches any
decodable payload outright; all remaining cases are substring
containment. -/
def amendedMatch (status_msg payload : String) : Bool :=
  match json_loads status_msg, json_loads payload with
  | some (Json.obj ekvs), some (Json.obj pkvs) => ekvs.all (matchKeyOk pkvs)
  | some (Json.obj ekvs), some _ => ekvs.isEmpty || pyIn status_msg payload
  | _, _ => pyIn status_msg payload

/-- The command normalization exactly as the claim states it: only a
payload that decodes to a JSON *object* is re-serialized; anything else
goes out verbatim. -/
def claimNormalize (p : String) : String :=
  match json_loads p with
  | some (Json.obj kvs) => json_dumps (Json.obj kvs)
  | _ => p

/-! ## Concrete fixtures for witnesses and counterexamples -/

def exEntry : Entry :=
  { payload := "\x7b\"power\":\"on\"\x7d", cmd_topic := "ac/cmd", output := "ON",
    status_topic := "ac/status", status_msg := "\x7b\"power\":\"on\"\x7d" }

def exLib : IRLibrary := [("library/ir/ac_power", [("on", exEntry)])]

def exPending : Pending :=
  { ui_topic := "library/ir/ac_power", input_val := "on", output_val := "ON",
    timestamp := 100 }

def exEntry7 : Entry :=
  { payload := "[1,2]", cmd_topic := "dev/cmd", output := "DONE",
    status_topic := "dev/status", status_msg := "OK" }

def exLib7 : IRLibrary := [("ui/cmd", [("go", exEntry7)])]

/-! ## Association-list lemmas -/

theorem assocFind_insert_self {β : Type} (l : List (String × β)) (k : String) (v : β) :
    assocFind (assocInsert l k v) k = some v := by
  induction l with
  | nil => simp [assocInsert, assocFind]
  | cons kv rest ih =>
      by_cases h : kv.1 = k
      · simp [assocInsert, assocFind, h]
      · simp [assocInsert, assocFind, h, ih]

theorem assocFind_insert_ne {β : Type} (l : List (String × β)) (k k' : String) (v : β)
    (h : k' ≠ k) : assocFind (assocInsert l k v) k' = assocFind l k' := by
  induction l with
  | nil => simp [assocInsert, assocFind, Ne.symm h]
  | cons kv rest ih =>
      by_cases hk : kv.1 = k
      · simp [assocInsert, assocFind, hk, Ne.symm h]
      · simp only [assocInsert, if_neg hk]
        by_cases hk' : kv.1 = k'
        · simp [assocFind, hk']
        · simp [assocFind, hk', ih]

theorem assocFind_erase_self {β : Type} (l : List (String × β)) (k : String) :
    assocFind (assocErase l k) k = none := by
  induction l with
  | nil => rfl
  | cons kv rest ih =>
      by_cases h : kv.1 = k
      · simp [assocErase, h, ih]
      · simp [assocErase, assocFind, h, ih]

theorem assocFind_erase_none {β : Type} (l : List (String × β)) (k k' : String)
    (h : assocFind l k = none) : assocFind (assocErase l k') k = none := by
  induction l with
  | nil => rfl
  | cons kv rest ih =>
      by_cases hk : kv.1 = k
      · simp [assocFind, hk] at h
      · simp only [assocFind, if_neg hk] at h
        by_cases hk' : kv.1 = k'
        · simp [assocErase, hk', ih h]
        · simp [assocErase, assocFind, hk, hk', ih h]

theorem assocFind_foldl_erase_none {β : Type} (keys : List String)
    (l : List (String × β)) (k : String) (h : assocFind l k = none) :
    assocFind (keys.foldl (fun p t => assocErase p t) l) k = none := by
  induction keys generalizing l with
  | nil => simpa using h
  | cons t ts ih => exact ih _ (assocFind_erase_none _ _ _ h)

theorem assocFind_foldl_erase_mem {β : Type} (keys : List String)
    (l : List (String × β)) (k : String) (h : k ∈ keys) :
    assocFind (keys.foldl (fun p t => assocErase p t) l) k = none := by
  induction keys generalizing l with
  | nil => cases h
  | cons t ts ih =>
      simp only [List.foldl_cons]
      rcases List.mem_cons.mp h with rfl | hmem
      · exact assocFind_foldl_erase_none ts _ _ (assocFind_erase_self l k)
      · exact ih _ hmem

theorem assocFind_mem {β : Type} (l : List (String × β)) (k : String) (v : β)
    (h : assocFind l k = some v) : (k, v) ∈ l := by
  induction l with
  | nil => simp [assocFind] at h
  | cons kv rest ih =>
      by_cases hk : kv.1 = k
      · simp only [assocFind, if_pos hk, Option.some.injEq] at h
        exact List.mem_cons.mpr (Or.inl (by cases kv; simp_all))
      · simp only [assocFind, if_neg hk] at h
        exact List.mem_cons.mpr (Or.inr (ih h))

/-! ## Loader lemmas -/

theorem load_library_flatten (files : List (List String)) :
    load_library files = files.flatten.foldl processLine ⟨[], 0, 0⟩ := by
  suffices h : ∀ (fs : List (List String)) (st : LoadState),
      fs.foldl (fun s lines => lines.foldl processLine s) st
        = fs.flatten.foldl processLine st from h files _
  intro fs
  induction fs with
  | nil => intro st; rfl
  | cons f rest ih => intro st; simp [List.foldl_append, ih]

theorem foldl_processLine_eq (lines : List String) (st : LoadState) :
    lines.foldl processLine st
      = ⟨buildLib st.lib (lines.filterMap recordOf),
         st.count + (lines.filterMap recordOf).length,
         st.warnings + lines.countP isMalformedLine⟩ := by
  induction lines generalizing st with
  | nil => simp [buildLib]
  | cons raw rest ih =>
      rw [List.foldl_cons, ih]
      cases hs : skipLine (pyStrip raw) with
      | true =>
          have h1 : processLine st raw = st := by simp [processLine, hs]
          have h2 : recordOf raw = none := by simp [recordOf, hs]
          have h3 : isMalformedLine raw = false := by simp [isMalformedLine, hs]
          simp [h1, h2, h3, List.filterMap_cons, List.countP_cons]
      | false =>
          rcases hp : parseRecord (pyStrip raw) with _ | r
          · have h1 : processLine st raw = ⟨st.lib, st.count, st.warnings + 1⟩ := by
              simp [processLine, hs, hp]
            have h2 : recordOf raw = none := by simp [recordOf, hs, hp]
            have h3 : isMalformedLine raw = true := by simp [isMalformedLine, hs, hp]
            simp [h1, h2, h3, List.filterMap_cons, List.countP_cons, LoadState.mk.injEq]
            omega
          · have h1 : processLine st raw
                = ⟨libInsert st.lib r.1 r.2.1 r.2.2, st.count + 1, st.warnings⟩ := by
              simp [processLine, hs, hp]
            have h2 : recordOf raw = some r := by simp [recordOf, hs, hp]
            have h3 : isMalformedLine raw = false := by simp [isMalformedLine, hs, hp]
            simp [h1, h2, h3, List.filterMap_cons, List.countP_cons, List.length_cons,
              LoadState.mk.injEq, buildLib, List.foldl_cons]
            omega

/-! ## Claim theorems -/

/-- C1: for an inbound message whose topic is a trigger topic and whose
stripped payload is a known trigger value, `on_message` performs exactly
one publish (the normalized command payload to the rule's device topic)
and exactly one pending-store mutation: the entry keyed by the rule's
status topic is created or replaced, capturing the rule's output value
and the current time, while every other key is untouched. -/
theorem dispatch_one_publish_one_pending
    (lib : IRLibrary) (st : Option Nat) (now : Nat) (pending : PendingStore)
    (topic payload : String) (cmds : List (String × Entry)) (entry : Entry)
    (hsup : startupSuppressed st now = false)
    (hlib : assocFind lib topic = some cmds)
    (hcmd : assocFind cmds (pyStrip payload) = some entry) :
    (on_message lib st now pending topic payload).2
        = [⟨entry.cmd_topic, normalize_payload entry.payload, false⟩]
    ∧ (on_message lib st now pending topic payload).1
        = assocInsert pending entry.status_topic
            ⟨topic, pyStrip payload, entry.output, now⟩
    ∧ assocFind (on_message lib st now pending topic payload).1 entry.status_topic
        = some ⟨topic, pyStrip payload, entry.output, now⟩
    ∧ ∀ k, k ≠ entry.status_topic →
        assocFind (on_message lib st now pending topic payload).1 k
          = assocFind pending k := by
  have h2 : (on_message lib st now pending topic payload).1
      = assocInsert pending entry.status_topic
          ⟨topic, pyStrip payload, entry.output, now⟩ := by
    simp [on_message, hsup, hlib, hcmd]
  refine ⟨by simp [on_message, hsup, hlib, hcmd], h2, ?_, ?_⟩
  · rw [h2]; exact assocFind_insert_self _ _ _
  · intro k hk; rw [h2]; exact assocFind_insert_ne _ _ _ _ hk

theorem dispatch_one_publish_one_pending_witness :
    startupSuppressed (some 100) 200 = false
    ∧ (on_message exLib (some 100) 200 [] "library/ir/ac_power" "on").2
        = [⟨"ac/cmd", "\x7b\"power\": \"on\"\x7d", false⟩]
    ∧ assocFind (on_message exLib (some 100) 200 [] "library/ir/ac_power" "on").1
        "ac/status" = some ⟨"library/ir/ac_power", "on", "ON", 200⟩
    ∧ assocFind (on_message exLib (some 100) 200 [] "library/ir/ac_power" "on").1
        "other" = assocFind ([] : PendingStore) "other" :=
  ⟨by decide,
   (dispatch_one_publish_one_pending exLib (some 100) 200 []
     "library/ir/ac_power" "on" [("on", exEntry)] exEntry (by decide) rfl rfl).1,
   (dispatch_one_publish_one_pending exLib (some 100) 200 []
     "library/ir/ac_power" "on" [("on", exEntry)] exEntry (by decide) rfl rfl).2.2.1,
   (dispatch_one_publish_one_pending exLib (some 100) 200 []
     "library/ir/ac_power" "on" [("on", exEntry)] exEntry (by decide) rfl rfl).2.2.2
     "other" (by decide)⟩

/-- C2 (counterexample): with `expected_status_payload = "{}"` and an
inbound payload `"123"` — JSON, but not a JSON object — the code
matches (the `all` over an empty dict is vacuously true and never
touches the decoded payload), while the claimed predicate falls back to
substring containment and fails. -/
theorem matchStatus_claim_counterexample :
    matchStatus "\x7b\x7d" "123" = true
    ∧ claimMatch "\x7b\x7d" "123" = false :=
  ⟨rfl, rfl⟩

/-- C2 (amended): the resolution match predicate equals: when
`expected_status_payload` decodes to a JSON object and the inbound
payload decodes to any JSON value, an empty expected object matches
outright, and a non-empty one is compared key-by-key when the payload is
an object (with `dict.get` semantics: an expected `null` also matches an
absent key, equality being Python `==`), falling back to substring
containment when the payload is non-object JSON; every other case is
substring containment of `expected_status_payload` in the payload. -/
theorem matchStatus_eq_amendedMatch (s p : String) :
    matchStatus s p = amendedMatch s p := by
  unfold matchStatus amendedMatch
  rcases json_loads s with _ | (_ | b | n | s1 | xs | ekvs) <;>
    rcases json_loads p with _ | (_ | b2 | n2 | s2 | xs2 | pkvs) <;>
    try rfl
  all_goals rcases ekvs with _ | ⟨kv, rest⟩ <;> rfl

/-- C3: a status message on a topic with an existing pending entry
removes that entry whatever the match outcome (remove-then-process);
a non-matching echo publishes nothing and is not re-queued; and a
duplicate of the same message afterwards changes nothing and publishes
nothing. -/
theorem resolution_removes_before_matching
    (lib : IRLibrary) (st : Option Nat) (now : Nat) (pending : PendingStore)
    (topic payload : String) (pd : Pending)
    (hsup : startupSuppressed st now = false)
    (hlib : assocFind lib topic = none)
    (hpd : assocFind pending topic = some pd) :
    assocFind (on_message lib st now pending topic payload).1 topic = none
    ∧ (∀ entry, assocFind2 lib pd.ui_topic pd.input_val = some entry →
          matchStatus entry.status_msg payload = false →
          (on_message lib st now pending topic payload).2 = [])
    ∧ (∀ now2, on_message lib st now2
          (on_message lib st now pending topic payload).1 topic payload
        = ((on_message lib st now pending topic payload).1, [])) := by
  have hred : (on_message lib st now pending topic payload).1
      = assocErase pending topic := by
    rcases he : assocFind2 lib pd.ui_topic pd.input_val with _ | entry
    · simp [on_message, hsup, hlib, hpd, he]
    · cases hm : matchStatus entry.status_msg payload
      · simp [on_message, hsup, hlib, hpd, he, hm]
      · simp [on_message, hsup, hlib, hpd, he, hm]
  have h1 : assocFind (on_message lib st now pending topic payload).1 topic = none := by
    rw [hred]; exact assocFind_erase_self _ _
  refine ⟨h1, ?_, ?_⟩
  · intro entry he hm
    simp [on_message, hsup, hlib, hpd, he, hm]
  · intro now2
    generalize hq : (on_message lib st now pending topic payload).1 = q at h1 ⊢
    cases hs2 : startupSuppressed st now2
    · simp [on_message, hs2, hlib, h1]
    · simp [on_message, hs2]

theorem resolution_removes_before_matching_witness :
    assocFind (on_message exLib (some 100) 200 [("ac/status", exPending)]
      "ac/status" "FAIL").1 "ac/status" = none
    ∧ (on_message exLib (some 100) 200 [("ac/status", exPending)]
        "ac/status" "FAIL").2 = []
    ∧ on_message exLib (some 100) 300
        (on_message exLib (some 100) 200 [("ac/status", exPending)]
          "ac/status" "FAIL").1 "ac/status" "FAIL"
      = ((on_message exLib (some 100) 200 [("ac/status", exPending)]
          "ac/status" "FAIL").1, []) :=
  ⟨(resolution_removes_before_matching exLib (some 100) 200
      [("ac/status", exPending)] "ac/status" "FAIL" exPending
      (by decide) rfl rfl).1,
   (resolution_removes_before_matching exLib (some 100) 200
      [("ac/status", exPending)] "ac/status" "FAIL" exPending
      (by decide) rfl rfl).2.1 exEntry rfl (by decide),
   (resolution_removes_before_matching exLib (some 100) 200
      [("ac/status", exPending)] "ac/status" "FAIL" exPending
      (by decide) rfl rfl).2.2 300⟩

/-- C4: when the pending entry's status message matches, the engine
publishes the output value captured at dispatch time to
`ui_topic ++ "/status"`, with the retained flag set. -/
theorem resolution_match_publishes_retained
    (lib : IRLibrary) (st : Option Nat) (now : Nat) (pending : PendingStore)
    (topic payload : String) (pd : Pending) (entry : Entry)
    (hsup : startupSuppressed st now = false)
    (hlib : assocFind lib topic = none)
    (hpd : assocFind pending topic = some pd)
    (he : assocFind2 lib pd.ui_topic pd.input_val = some entry)
    (hm : matchStatus entry.status_msg payload = true) :
    (on_message lib st now pending topic payload).2
      = [⟨pd.ui_topic ++ "/status", pd.output_val, true⟩] := by
  simp [on_message, hsup, hlib, hpd, he, hm]

theorem resolution_match_publishes_retained_witness :
    matchStatus exEntry.status_msg "\x7b\"power\":\"on\",\"temp\":22\x7d" = true
    ∧ (on_message exLib (some 100) 210 [("ac/status", exPending)]
        "ac/status" "\x7b\"power\":\"on\",\"temp\":22\x7d").2
      = [⟨"library/ir/ac_power/status", "ON", true⟩] :=
  ⟨by decide,
   resolution_match_publishes_retained exLib (some 100) 210
     [("ac/status", exPending)] "ac/status"
     "\x7b\"power\":\"on\",\"temp\":22\x7d" exPending exEntry
     (by decide) rfl rfl rfl (by decide)⟩

/-- C5: the eviction sweep removes every pending entry older than 30
time units (it performs no publish: its result type records none), and a
status message arriving after the sweep on that key finds no pending
entry, so it resolves nothing, changes nothing and publishes nothing. -/
theorem cleanup_evicts_stale
    (pending : PendingStore) (now : Nat) (k : String) (pd : Pending)
    (hfind : assocFind pending k = some pd)
    (hold : 30 < now - pd.timestamp)
    (lib : IRLibrary) (st : Option Nat) (now2 : Nat) (payload : String)
    (hlib : assocFind lib k = none) :
    assocFind (cleanup_pending_commands now pending) k = none
    ∧ on_message lib st now2 (cleanup_pending_commands now pending) k payload
        = (cleanup_pending_commands now pending, []) := by
  have hk : k ∈ (pending.filter
      (fun kv => decide (30 < now - kv.2.timestamp))).map Prod.fst := by
    refine List.mem_map.mpr
      ⟨(k, pd), List.mem_filter.mpr ⟨assocFind_mem _ _ _ hfind, ?_⟩, rfl⟩
    exact decide_eq_true hold
  have h1 : assocFind (cleanup_pending_commands now pending) k = none := by
    simp only [cleanup_pending_commands]
    exact assocFind_foldl_erase_mem _ _ _ hk
  refine ⟨h1, ?_⟩
  cases hs : startupSuppressed st now2
  · simp [on_message, hs, hlib, h1]
  · simp [on_message, hs]

theorem cleanup_evicts_stale_witness :
    assocFind (cleanup_pending_commands 200 [("ac/status", exPending)])
      "ac/status" = none
    ∧ on_message ([] : IRLibrary) none 210
        (cleanup_pending_commands 200 [("ac/status", exPending)])
        "ac/status" "ON"
      = (cleanup_pending_commands 200 [("ac/status", exPending)], []) :=
  cleanup_evicts_stale [("ac/status", exPending)] 200 "ac/status" exPending
    rfl (by decide) [] none 210 "ON" rfl

/-- C6: any message arriving within 3 time units of a (positive-clock)
startup is dropped unprocessed: no publish and no pending-store change,
whatever its topic or payload. -/
theorem suppression_window_drops_messages
    (lib : IRLibrary) (pending : PendingStore) (topic payload : String)
    (t now : Nat) (ht : 0 < t) (h1 : t ≤ now) (h2 : now < t + 3) :
    on_message lib (some t) now pending topic payload = (pending, []) := by
  have hs : startupSuppressed (some t) now = true := by
    simp only [startupSuppressed, Bool.and_eq_true, bne_iff_ne, ne_eq,
      decide_eq_true_eq]
    omega
  simp [on_message, hs]

theorem suppression_window_drops_messages_witness :
    0 < 100 ∧ 100 ≤ 101 ∧ 101 < 100 + 3
    ∧ on_message exLib (some 100) 101 [("ac/status", exPending)]
        "library/ir/ac_power" "on"
      = ([("ac/status", exPending)], []) :=
  ⟨by decide, by decide, by decide,
   suppression_window_drops_messages exLib [("ac/status", exPending)]
     "library/ir/ac_power" "on" 100 101 (by decide) (by decide) (by decide)⟩

/-- C7 (counterexample): the library payload `[1,2]` decodes to a JSON
array, not an object, so the claim says it is sent verbatim; the code
re-serializes any decodable JSON and actually publishes `[1, 2]`. -/
theorem normalize_claim_counterexample :
    json_loads "[1,2]" = some (Json.arr [Json.num 1, Json.num 2])
    ∧ (on_message exLib7 none 10 [] "ui/cmd" "go").2
        = [⟨"dev/cmd", "[1, 2]", false⟩]
    ∧ claimNormalize "[1,2]" = "[1,2]"
    ∧ normalize_payload "[1,2]" ≠ claimNormalize "[1,2]" :=
  ⟨rfl, rfl, rfl, by decide⟩

/-- C7 (amended): for a matched trigger, the published command payload
is the canonical re-serialization of `command_payload` whenever it
decodes as any JSON value, and the raw string unchanged when it does not
decode. -/
theorem dispatch_normalizes_any_json
    (lib : IRLibrary) (st : Option Nat) (now : Nat) (pending : PendingStore)
    (topic payload : String) (cmds : List (String × Entry)) (entry : Entry)
    (hsup : startupSuppressed st now = false)
    (hlib : assocFind lib topic = some cmds)
    (hcmd : assocFind cmds (pyStrip payload) = some entry) :
    (∀ j, json_loads entry.payload = some j →
        (on_message lib st now pending topic payload).2
          = [⟨entry.cmd_topic, json_dumps j, false⟩])
    ∧ (json_loads entry.payload = none →
        (on_message lib st now pending topic payload).2
          = [⟨entry.cmd_topic, entry.payload, false⟩]) := by
  constructor
  · intro j hj
    simp [on_message, hsup, hlib, hcmd, normalize_payload, hj]
  · intro hj
    simp [on_message, hsup, hlib, hcmd, normalize_payload, hj]

theorem dispatch_normalizes_any_json_witness :
    json_loads exEntry.payload = some (Json.obj [("power", Json.str "on")])
    ∧ (on_message exLib (some 100) 200 [] "library/ir/ac_power" "on").2
        = [⟨"ac/cmd", json_dumps (Json.obj [("power", Json.str "on")]), false⟩] :=
  ⟨rfl,
   (dispatch_normalizes_any_json exLib (some 100) 200 []
      "library/ir/ac_power" "on" [("on", exEntry)] exEntry
      (by decide) rfl rfl).1 (Json.obj [("power", Json.str "on")]) rfl⟩

/-- C8: a message on a known trigger topic whose stripped payload is not
a known trigger value is dropped with no side effect: no publish and an
unchanged pending store. -/
theorem unknown_trigger_value_no_side_effect
    (lib : IRLibrary) (st : Option Nat) (now : Nat) (pending : PendingStore)
    (topic payload : String) (cmds : List (String × Entry))
    (hsup : startupSuppressed st now = false)
    (hlib : assocFind lib topic = some cmds)
    (hval : assocFind cmds (pyStrip payload) = none) :
    on_message lib st now pending topic payload = (pending, []) := by
  simp [on_message, hsup, hlib, hval]

theorem unknown_trigger_value_no_side_effect_witness :
    on_message exLib (some 100) 200 [("ac/status", exPending)]
      "library/ir/ac_power" "weird"
      = ([("ac/status", exPending)], []) :=
  unknown_trigger_value_no_side_effect exLib (some 100) 200
    [("ac/status", exPending)] "library/ir/ac_power" "weird"
    [("on", exEntry)] (by decide) rfl rfl

/-- C9: library loading skips every malformed line with exactly one
recorded warning each, loads exactly the valid records (the resulting
table is the fold of the valid records alone), and fails if and only if
zero valid records were found across all input files. -/
theorem load_library_skips_malformed_and_fails_iff_empty
    (files : List (List String)) :
    (load_library files).lib = buildLib [] (validRecords files)
    ∧ (load_library files).count = (validRecords files).length
    ∧ (load_library files).warnings = malformedCount files
    ∧ (load_library_succeeded files = true ↔ validRecords files ≠ []) := by
  have h : load_library files
      = ⟨buildLib [] (validRecords files), (validRecords files).length,
         malformedCount files⟩ := by
    rw [load_library_flatten, foldl_processLine_eq]
    simp [validRecords, malformedCount]
  refine ⟨by rw [h], by rw [h], by rw [h], ?_⟩
  rw [load_library_succeeded, h]
  simp [List.length_eq_zero]

/-- C10: a message whose topic is both a trigger topic and the key of an
existing pending entry is processed only by the dispatch path: the
outcome is exactly the dispatch outcome (whatever pending entry sits
under that key), and when the payload is not a known trigger value the
pending entry survives untouched rather than being consumed. -/
theorem trigger_topic_precedence
    (lib : IRLibrary) (st : Option Nat) (now : Nat) (pending : PendingStore)
    (topic payload : String) (cmds : List (String × Entry)) (pd : Pending)
    (hsup : startupSuppressed st now = false)
    (hlib : assocFind lib topic = some cmds)
    (hpd : assocFind pending topic = some pd) :
    (on_message lib st now pending topic payload
       = match assocFind cmds (pyStrip payload) with
         | some entry =>
             (assocInsert pending entry.status_topic
                ⟨topic, pyStrip payload, entry.output, now⟩,
              [⟨entry.cmd_topic, normalize_payload entry.payload, false⟩])
         | none => (pending, []))
    ∧ (assocFind cmds (pyStrip payload) = none →
        assocFind (on_message lib st now pending topic payload).1 topic
          = some pd) := by
  constructor
  · rcases hv : assocFind cmds (pyStrip payload) with _ | entry <;>
      simp [on_message, hsup, hlib, hv]
  · intro hv
    simp [on_message, hsup, hlib, hv, hpd]

theorem trigger_topic_precedence_witness :
    (on_message exLib (some 100) 200 [("library/ir/ac_power", exPending)]
        "library/ir/ac_power" "weird"
      = match assocFind [("on", exEntry)] (pyStrip "weird") with
        | some entry =>
            (assocInsert [("library/ir/ac_power", exPending)] entry.status_topic
               ⟨"library/ir/ac_power", pyStrip "weird", entry.output, 200⟩,
             [⟨entry.cmd_topic, normalize_payload entry.payload, false⟩])
        | none => ([("library/ir/ac_power", exPending)], []))
    ∧ assocFind (on_message exLib (some 100) 200
        [("library/ir/ac_power", exPending)] "library/ir/ac_power" "weird").1
        "library/ir/ac_power" = some exPending :=
  ⟨(trigger_topic_precedence exLib (some 100) 200
      [("library/ir/ac_power", exPending)] "library/ir/ac_power" "weird"
      [("on", exEntry)] exPending (by decide) rfl rfl).1,
   (trigger_topic_precedence exLib (some 100) 200
      [("library/ir/ac_power", exPending)] "library/ir/ac_power" "weird"
      [("on", exEntry)] exPending (by decide) rfl rfl).2 rfl⟩
